import Mathlib

/-!
Verification of the booking/availability engine of the Car_rental system.

Shallow embedding conventions:
* Calendar dates are whole-day integers (`Int`).  The system handles pure
  calendar dates: the UI collects `date` values and stores them combined with
  midnight time, so `(end_date - start_date).days` on stored values is the
  exact integer difference of day numbers.
* Currency amounts (`daily_rate`, `total_amount`, payment `amount`) are `ℚ`:
  the Python code does plain multiplication of a rate by an integer day count.
* The Firestore collections are modelled as a `Store` of lists of records
  keyed by their id fields; `document(id).set` replaces any record with the
  same id, `document(id).update` rewrites the matching record in place, and a
  query is a list filter.
* Each fallible storage round-trip in a `try`/`except` block is modelled by a
  `Bool` flag (`true` = the call succeeds, `false` = the storage client
  raises and the surrounding handler runs).  The flags mirror exactly the
  `except` branches of `database.py`.
-/

namespace CarRental

/-- Mirrors `models.py` class `Car`. -/
structure Car where
  car_id : String
  brand : String
  model : String
  year : Int
  daily_rate : ℚ
  status : String
  color : String
  fuel_type : String
  seats : Int
  image_url : String
deriving Repr, DecidableEq

/-- Mirrors `models.py` class `Booking`. -/
structure Booking where
  booking_id : String
  customer_id : String
  car_id : String
  start_date : Int
  end_date : Int
  total_amount : ℚ
  status : String
  customer_name : String
  car_info : String
  created_at : Int
deriving Repr, DecidableEq

/-- Mirrors `models.py` class `Payment`. -/
structure Payment where
  payment_id : String
  booking_id : String
  amount : ℚ
  payment_date : Int
  payment_method : String
  status : String
deriving Repr, DecidableEq

/-- The Firestore document store: collections `cars`, `bookings`, `payments`
(the `users` collection plays no part in the claims). -/
structure Store where
  cars : List Car
  bookings : List Booking
  payments : List Payment
deriving Repr, DecidableEq

/-- `utils.calculate_days`: `max(1, (end_date - start_date).days)`. -/
def calculate_days (start_date end_date : Int) : Int :=
  max 1 (end_date - start_date)

/-- `utils.calculate_total_amount`: `daily_rate * calculate_days(start, end)`. -/
def calculate_total_amount (daily_rate : ℚ) (start_date end_date : Int) : ℚ :=
  daily_rate * (calculate_days start_date end_date : ℚ)

/-- Python truthiness test of `check_car_availability`, line 231:
`if exclude_booking_id and booking_data[booking_id] == exclude_booking_id`.
`None` and the empty string are falsy, so a booking is skipped exactly when
the exclude argument is a nonempty string equal to its id. -/
def isExcluded (excl : Option String) (bid : String) : Bool :=
  match excl with
  | none => false
  | some x => (!(x == "")) && (bid == x)

/-- The `for booking_doc in bookings` loop of `check_car_availability`
(lines 227-241): skip the excluded booking, return `False` on the first
overlap `not (end_date <= existing_start or start_date >= existing_end)`,
return `True` when the loop finishes. -/
def availabilityLoop (s e : Int) (excl : Option String) : List Booking → Bool
  | [] => true
  | b :: rest =>
    if isExcluded excl b.booking_id then availabilityLoop s e excl rest
    else if ¬(e ≤ b.start_date ∨ s ≥ b.end_date) then false
    else availabilityLoop s e excl rest

/-- The Firestore query of `check_car_availability` (lines 222-225):
bookings with `car_id == cid` and `status == "Active"`. -/
def activeBookingsFor (st : Store) (cid : String) : List Booking :=
  st.bookings.filter (fun b => b.car_id == cid && b.status == "Active")

/-- `Database.check_car_availability` (lines 217-244).  `fetchOk = false`
models the storage query raising; the `except` branch then returns `False`. -/
def check_car_availability (fetchOk : Bool) (st : Store) (cid : String)
    (s e : Int) (excl : Option String) : Bool :=
  if fetchOk then availabilityLoop s e excl (activeBookingsFor st cid)
  else false

/-- `Database.get_booking` (lines 151-160): fetch the booking document with
the given id, `None` when absent. -/
def get_booking (st : Store) (bid : String) : Option Booking :=
  st.bookings.find? (fun b => b.booking_id == bid)

/-- `document(booking_id).set(booking.to_dict())` in `create_booking`
(line 143): store the record under its id, replacing any record with that id. -/
def setBooking (st : Store) (b : Booking) : Store :=
  { st with bookings :=
      st.bookings.filter (fun x => !(x.booking_id == b.booking_id)) ++ [b] }

/-- `Database.update_booking(booking_id, data)` (lines 180-187) as it is used
by cancel/complete: `data` maps the status key to the new status; it rewrites the status of the
booking with the given id. -/
def update_booking_status (st : Store) (bid status : String) : Store :=
  { st with bookings :=
      st.bookings.map (fun b =>
        if b.booking_id == bid then { b with status := status } else b) }

/-- `Database.update_car_status` (lines 130-132): delegates to `update_car`
with a single-entry status update. -/
def update_car_status (st : Store) (cid status : String) : Store :=
  { st with cars :=
      st.cars.map (fun c =>
        if c.car_id == cid then { c with status := status } else c) }

/-- `Database.create_payment` (lines 247-254): store the payment record under
its id. -/
def create_payment (st : Store) (p : Payment) : Store :=
  { st with payments :=
      st.payments.filter (fun x => !(x.payment_id == p.payment_id)) ++ [p] }

/-- `Database.create_booking` (lines 135-149).  Returns the boolean result
and the resulting store.  `fetchOk` is the availability query flag; when the
query raises, `check_car_availability` itself returns `False` and
`create_booking` takes the not-available branch.  `setOk = false` models
`document(...).set` raising: the `except` branch returns `False` with nothing
written.  `update_car_status` catches its own storage errors and only returns
a (discarded) `False`, so `updCarOk = false` skips the car write while
`create_booking` still returns `True`. -/
def create_booking (fetchOk setOk updCarOk : Bool) (st : Store) (b : Booking) :
    Bool × Store :=
  if check_car_availability fetchOk st b.car_id b.start_date b.end_date none
      = false then
    (false, st)
  else if setOk = false then (false, st)
  else
    let st1 := setBooking st b
    let st2 := if updCarOk then update_car_status st1 b.car_id "Booked" else st1
    (true, st2)

/-- `Database.cancel_booking` (lines 189-201).  `getOk = false` models the
fetch raising: `get_booking` catches it and returns `None`, and
`cancel_booking` returns `False`.  `update_booking` and `update_car_status`
catch their own storage errors and return `False`, a value `cancel_booking`
ignores, so `updBookingOk`/`updCarOk` being `false` skips the corresponding
write without changing the returned boolean. -/
def cancel_booking (getOk updBookingOk updCarOk : Bool) (st : Store)
    (bid : String) : Bool × Store :=
  match (if getOk then get_booking st bid else none) with
  | none => (false, st)
  | some b =>
    let st1 := if updBookingOk then update_booking_status st bid "Cancelled" else st
    let st2 := if updCarOk then update_car_status st1 b.car_id "Available" else st1
    (true, st2)

/-- `Database.complete_booking` (lines 203-215): same shape as
`cancel_booking`, writing status `Completed`. -/
def complete_booking (getOk updBookingOk updCarOk : Bool) (st : Store)
    (bid : String) : Bool × Store :=
  match (if getOk then get_booking st bid else none) with
  | none => (false, st)
  | some b =>
    let st1 := if updBookingOk then update_booking_status st bid "Completed" else st
    let st2 := if updCarOk then update_car_status st1 b.car_id "Available" else st1
    (true, st2)

/-- Outcome of the UI-level booking flow `confirm_booking`
(`ui/customer_dashboard.py`). -/
inductive BookingOutcome
  | invalidRange
  | pastStart
  | carUnavailable
  | createFailed
  | success
deriving Repr, DecidableEq

/-- `confirm_booking` in `ui/customer_dashboard.py` (the booking-creation
operation): reject `end_date <= start_date`, reject a start date before
`today`, reject an unavailable car, then build the `Booking` with status
`Active` and amount `calculate_total_amount(car.daily_rate, start, end)`,
call `create_booking`, and on success store the `Payment` record (whose
result is ignored: `payOk = false` skips the payment write). -/
def confirm_booking (today now : Int) (setOk updCarOk payOk : Bool)
    (st : Store) (car : Car) (uid uname bid payid : String) (s e : Int) :
    BookingOutcome × Store :=
  if e ≤ s then (BookingOutcome.invalidRange, st)
  else if s < today then (BookingOutcome.pastStart, st)
  else if check_car_availability true st car.car_id s e none = false then
    (BookingOutcome.carUnavailable, st)
  else
    let total := calculate_total_amount car.daily_rate s e
    let b : Booking :=
      { booking_id := bid, customer_id := uid, car_id := car.car_id,
        start_date := s, end_date := e, total_amount := total,
        status := "Active", customer_name := uname,
        car_info := car.brand ++ " " ++ car.model, created_at := now }
    match create_booking true setOk updCarOk st b with
    | (true, st1) =>
      let p : Payment :=
        { payment_id := payid, booking_id := bid, amount := total,
          payment_date := now, payment_method := "Online",
          status := "Completed" }
      (BookingOutcome.success, if payOk then create_payment st1 p else st1)
    | (false, st1) => (BookingOutcome.createFailed, st1)

/-- The `[start, end)` ranges of the two bookings do not overlap. -/
def NoOverlap (b1 b2 : Booking) : Prop :=
  ¬(b1.start_date < b2.end_date ∧ b2.start_date < b1.end_date)

/-- The no-double-booking invariant: for every car, the Active bookings have
pairwise non-overlapping `[start, end)` intervals. -/
def InvariantHolds (st : Store) : Prop :=
  ∀ cid, (activeBookingsFor st cid).Pairwise NoOverlap

/-- The scan returns `false` exactly when some non-skipped booking in the list
overlaps the requested range. -/
theorem availabilityLoop_eq_false_iff (s e : Int) (excl : Option String)
    (l : List Booking) :
    availabilityLoop s e excl l = false ↔
      ∃ b ∈ l, isExcluded excl b.booking_id = false ∧
        ¬(e ≤ b.start_date ∨ s ≥ b.end_date) := by
  induction l with
  | nil => simp [availabilityLoop]
  | cons b rest ih =>
    by_cases hex : isExcluded excl b.booking_id = true
    · simp [availabilityLoop, hex, ih]
    · by_cases hov : e ≤ b.start_date ∨ s ≥ b.end_date
      · simp only [availabilityLoop, Bool.not_eq_true] at hex ⊢
        rw [if_neg (by simp [hex]), if_neg (not_not_intro hov), ih]
        constructor
        · rintro ⟨x, hx, h1, h2⟩
          exact ⟨x, List.mem_cons_of_mem b hx, h1, h2⟩
        · rintro ⟨x, hx, h1, h2⟩
          rcases List.mem_cons.mp hx with hxb | hxr
          · exact absurd (hxb ▸ hov) h2
          · exact ⟨x, hxr, h1, h2⟩
      · simp only [availabilityLoop, Bool.not_eq_true] at hex ⊢
        rw [if_neg (by simp [hex]), if_pos hov]
        exact ⟨fun _ => ⟨b, List.mem_cons_self b rest, hex, hov⟩, fun _ => rfl⟩

/-- When the scan with no exclusion reports the car available, no booking in
the list overlaps the requested range. -/
theorem availabilityLoop_true_no_overlap (s e : Int) (l : List Booking)
    (h : availabilityLoop s e none l = true) :
    ∀ b ∈ l, e ≤ b.start_date ∨ s ≥ b.end_date := by
  intro b hb
  by_contra hov
  have hfalse : availabilityLoop s e none l = false :=
    (availabilityLoop_eq_false_iff s e none l).mpr ⟨b, hb, rfl, hov⟩
  rw [hfalse] at h
  exact Bool.noConfusion h

/-- Filtering after a map that fixes every element kept by the filter gives a
sublist of filtering the original list. -/
theorem filter_map_sublist {α : Type} (f : α → α) (p : α → Bool)
    (hf : ∀ b, p (f b) = true → f b = b) :
    ∀ l : List α, List.Sublist ((l.map f).filter p) (l.filter p)
  | [] => List.Sublist.refl _
  | b :: l => by
    rw [List.map_cons, List.filter_cons, List.filter_cons]
    by_cases hp : p (f b) = true
    · have hfb : f b = b := hf b hp
      have hpb : p b = true := hfb ▸ hp
      rw [if_pos hp, if_pos hpb, hfb]
      exact (filter_map_sublist f p hf l).cons₂ b
    · rw [if_neg hp]
      by_cases hpb : p b = true
      · rw [if_pos hpb]
        exact (filter_map_sublist f p hf l).cons b
      · rw [if_neg hpb]
        exact filter_map_sublist f p hf l

/-- Touching only the `cars` collection leaves the invariant untouched. -/
theorem invariant_update_car_status (st : Store) (cid status : String)
    (h : InvariantHolds st) : InvariantHolds (update_car_status st cid status) :=
  h

/-- Rewriting one booking status to a non-Active value preserves the
invariant: the Active bookings of every car afterwards form a sublist of the
ones before. -/
theorem invariant_update_booking_status (st : Store) (bid status : String)
    (hs : (status == "Active") = false) (h : InvariantHolds st) :
    InvariantHolds (update_booking_status st bid status) := by
  intro cid
  have hsub := filter_map_sublist
    (fun b => if b.booking_id == bid then { b with status := status } else b)
    (fun b => b.car_id == cid && b.status == "Active")
    (fun b hb => by
      simp only [] at hb ⊢
      by_cases hbid : (b.booking_id == bid) = true
      · rw [if_pos hbid] at hb
        simp [hs] at hb
      · rw [if_neg hbid]) st.bookings
  exact (h cid).sublist hsub

/-- Inserting a booking that overlaps no Active booking of its car preserves
the invariant. -/
theorem invariant_setBooking (st : Store) (b : Booking)
    (h : InvariantHolds st)
    (hav : ∀ a ∈ activeBookingsFor st b.car_id,
      b.end_date ≤ a.start_date ∨ b.start_date ≥ a.end_date) :
    InvariantHolds (setBooking st b) := by
  intro cid
  show (((st.bookings.filter
      (fun x => !(x.booking_id == b.booking_id))) ++ [b]).filter
        (fun x => x.car_id == cid && x.status == "Active")).Pairwise NoOverlap
  rw [List.filter_append]
  by_cases hp : (b.car_id == cid && b.status == "Active") = true
  · rw [List.pairwise_append]
    have hcid : b.car_id = cid := by
      have := (Bool.and_eq_true _ _).mp hp
      exact beq_iff_eq.mp this.1
    refine ⟨?_, ?_, ?_⟩
    · rw [List.filter_comm]
      exact (h cid).filter _
    · simp [hp]
    · intro a ha c hc
      have hc2 : c = b := by simpa [hp] using hc
      subst hc2
      have ha2 : a ∈ st.bookings.filter
          (fun x => x.car_id == cid && x.status == "Active") := by
        rw [List.mem_filter] at ha ⊢
        exact ⟨(List.mem_filter.mp ha.1).1, ha.2⟩
      have hover := hav a (hcid ▸ ha2)
      rw [NoOverlap]
      omega
  · have hemp : List.filter (fun x => x.car_id == cid && x.status == "Active")
        [b] = [] := by simp [hp]
    rw [hemp, List.append_nil, List.filter_comm]
    exact (h cid).filter _

/-- Concrete car used by the witnesses. -/
def carW : Car :=
  { car_id := "CAR1", brand := "Toyota", model := "Glanza", year := 2024,
    daily_rate := 1500, status := "Booked", color := "White",
    fuel_type := "Petrol", seats := 5, image_url := "" }

/-- Concrete Active booking of `carW` for days `[0, 10)`. -/
def bookingW : Booking :=
  { booking_id := "B1", customer_id := "U1", car_id := "CAR1",
    start_date := 0, end_date := 10, total_amount := 15000,
    status := "Active", customer_name := "Asha", car_info := "Toyota Glanza",
    created_at := 0 }

/-- Store holding `carW` and the Active booking `bookingW`. -/
def storeW : Store := { cars := [carW], bookings := [bookingW], payments := [] }

/-- Same store, but the booking is already Cancelled. -/
def storeCancelled : Store :=
  { cars := [carW],
    bookings := [{ bookingW with status := "Cancelled" }], payments := [] }

/-- The empty store. -/
def storeEmpty : Store := { cars := [], bookings := [], payments := [] }

/-- A second booking of `carW` whose range `[5, 15)` overlaps `bookingW`. -/
def bookingOverlap : Booking :=
  { bookingW with
    booking_id := "B2"
    start_date := 5
    end_date := 15
    total_amount := 15000 }

/-- Claim C3: whenever the requested end date is not after the start date,
the booking-creation operation fails with the invalid-range error and the
store is untouched: no booking is written and no car status changes. -/
theorem confirm_booking_invalid_range (today now : Int)
    (setOk updCarOk payOk : Bool) (st : Store) (car : Car)
    (uid uname bid payid : String) (s e : Int) (h : e ≤ s) :
    confirm_booking today now setOk updCarOk payOk st car uid uname bid payid
      s e = (BookingOutcome.invalidRange, st) := by
  simp [confirm_booking, h]

/-- Witness for claim C3 at a concrete same-day request. -/
theorem confirm_booking_invalid_range_witness :
    confirm_booking 0 0 true true true storeW carW "U1" "Asha" "B9" "P9" 5 5
      = (BookingOutcome.invalidRange, storeW) :=
  confirm_booking_invalid_range 0 0 true true true storeW carW "U1" "Asha"
    "B9" "P9" 5 5 (by norm_num)

/-- Claim C4, code behavior at the failing input: on a booking that is
already Cancelled, `cancel_booking` still returns `true` and re-applies the
car-status side effect (the car is set to Available again), and
`complete_booking` even moves the booking out of the terminal Cancelled
status into Completed.  This contradicts the claim that such calls are
rejected or fail without the side effect. -/
theorem cancel_complete_ignore_terminal_status :
    (cancel_booking true true true storeCancelled "B1").1 = true ∧
    (∃ c ∈ (cancel_booking true true true storeCancelled "B1").2.cars,
      c.car_id = "CAR1" ∧ c.status = "Available") ∧
    (complete_booking true true true storeCancelled "B1").1 = true ∧
    (∃ b ∈ (complete_booking true true true storeCancelled "B1").2.bookings,
      b.booking_id = "B1" ∧ b.status = "Completed") := by
  decide

/-- Claim C5: when the storage query for the bookings of the car raises, the
availability check fails closed and reports the car unavailable. -/
theorem check_car_availability_fails_closed (st : Store) (cid : String)
    (s e : Int) (excl : Option String) :
    check_car_availability false st cid s e excl = false :=
  rfl

/-- Counterexample for claim C6: the booking exists and the status-update
write fails at the store (and so does the car write), yet `cancel_booking`
returns `true`, not `false` — the boolean results of `update_booking` and
`update_car_status` are discarded. -/
theorem cancel_booking_update_failure_returns_true :
    (cancel_booking true false false storeW "B1").1 = true ∧
    (complete_booking true true false storeW "B1").1 = true := by
  decide

/-- Claim C6 as amended: the boolean returned by `cancel_booking` and
`complete_booking` depends only on the fetch step — it is `true` exactly when
the fetch succeeds and finds the booking; failures of the booking-status
write or the car-status write are caught inside `update_booking` and
`update_car` and never change the returned value. -/
theorem cancel_complete_result_depends_only_on_fetch
    (getOk updBookingOk updCarOk : Bool) (st : Store) (bid : String) :
    (cancel_booking getOk updBookingOk updCarOk st bid).1
        = (getOk && (get_booking st bid).isSome) ∧
    (complete_booking getOk updBookingOk updCarOk st bid).1
        = (getOk && (get_booking st bid).isSome) := by
  cases getOk with
  | false => simp [cancel_booking, complete_booking]
  | true =>
    cases hg : get_booking st bid with
    | none => simp [cancel_booking, complete_booking, hg]
    | some b => simp [cancel_booking, complete_booking, hg]

/-- Claim C8: pricing is the pure function
`total = dailyRate * max(1, endDate - startDate)`; in particular a rate of
1500 over `[Day0, Day3)` costs 4500 and over `[Day0, Day0)` costs 1500. -/
theorem calculate_total_amount_formula :
    (∀ (rate : ℚ) (s e : Int),
      calculate_total_amount rate s e = rate * ((max 1 (e - s) : Int) : ℚ)) ∧
    calculate_total_amount 1500 0 3 = 4500 ∧
    calculate_total_amount 1500 0 0 = 1500 := by
  refine ⟨fun rate s e => rfl, ?_, ?_⟩ <;>
    norm_num [calculate_total_amount, calculate_days]

/-- Claim C9: when the availability check rejects the booking request,
`create_booking` returns `false` and leaves the store unchanged: no booking
record is written and no car status is modified. -/
theorem create_booking_unavailable_leaves_store (setOk updCarOk : Bool)
    (st : Store) (b : Booking)
    (h : check_car_availability true st b.car_id b.start_date b.end_date none
      = false) :
    create_booking true setOk updCarOk st b = (false, st) := by
  simp [create_booking, h]

/-- Witness for claim C9: booking `[5, 15)` overlaps the Active `[0, 10)`
booking of the car, so creation fails and the store is unchanged. -/
theorem create_booking_unavailable_leaves_store_witness :
    create_booking true true true storeW bookingOverlap = (false, storeW) :=
  create_booking_unavailable_leaves_store true true storeW bookingOverlap
    (by decide)

/-- Claim C10: the billable-day count is always at least 1, equals exactly 1
for a reversed or empty range, and the resulting total is positive whenever
the daily rate is. -/
theorem calculate_days_at_least_one :
    (∀ s e : Int, 1 ≤ calculate_days s e) ∧
    (∀ s e : Int, e ≤ s → calculate_days s e = 1) ∧
    (∀ (rate : ℚ) (s e : Int), 0 < rate →
      0 < calculate_total_amount rate s e) := by
  refine ⟨fun s e => le_max_left 1 _, fun s e h => ?_, fun rate s e hr => ?_⟩
  · rw [calculate_days, max_eq_left (by omega)]
  · rw [calculate_total_amount]
    have h1 : (1 : Int) ≤ calculate_days s e := le_max_left 1 _
    have h2 : (1 : ℚ) ≤ ((calculate_days s e : Int) : ℚ) := by
      exact_mod_cast h1
    exact lt_of_lt_of_le hr (le_mul_of_one_le_right hr.le h2)

/-- Witness for claim C10 at concrete reversed dates. -/
theorem calculate_days_at_least_one_witness :
    1 ≤ calculate_days 0 5 ∧ calculate_days 7 3 = 1 ∧
    0 < calculate_total_amount 1500 7 3 :=
  ⟨calculate_days_at_least_one.1 0 5,
   calculate_days_at_least_one.2.1 7 3 (by norm_num),
   calculate_days_at_least_one.2.2 1500 7 3 (by norm_num)⟩

/-- Claim C1: for every car, half-open requested range `[s, e)` and optional
excluded booking id (when present it is an actual booking id, hence nonempty),
the availability check returns `false` exactly when some stored Active
booking of the car, other than the excluded one, satisfies
`NOT (e <= existing.start OR s >= existing.end)`.  In particular a booking
ending on day D never conflicts with a request starting on day D, and the
check returns `true` when no other Active booking overlaps. -/
theorem check_car_availability_false_iff_overlap (st : Store) (cid : String)
    (s e : Int) (excl : Option String) (hx : excl ≠ some "") :
    check_car_availability true st cid s e excl = false ↔
      ∃ b ∈ st.bookings, b.car_id = cid ∧ b.status = "Active" ∧
        (∀ x, excl = some x → b.booking_id ≠ x) ∧
        ¬(e ≤ b.start_date ∨ s ≥ b.end_date) := by
  rw [check_car_availability, if_pos rfl, availabilityLoop_eq_false_iff]
  constructor
  · rintro ⟨b, hb, hexc, hov⟩
    rw [activeBookingsFor, List.mem_filter, Bool.and_eq_true, beq_iff_eq,
      beq_iff_eq] at hb
    refine ⟨b, hb.1, hb.2.1, hb.2.2, ?_, hov⟩
    intro x hxeq heq
    have hxne : x ≠ "" := fun h0 => hx (h0 ▸ hxeq)
    rw [hxeq] at hexc
    simp [isExcluded, hxne, heq] at hexc
  · rintro ⟨b, hmem, hcar, hstat, hskip, hov⟩
    refine ⟨b, ?_, ?_, hov⟩
    · rw [activeBookingsFor, List.mem_filter]
      exact ⟨hmem, by simp [hcar, hstat]⟩
    · cases excl with
      | none => rfl
      | some x => simp [isExcluded, hskip x rfl]

/-- Witness for claim C1: the stored Active booking covers `[0, 10)` and the
request is `[10, 20)` — the shared boundary day 10 is no conflict, so the
check returns `true`. -/
theorem check_car_availability_halfopen_witness :
    check_car_availability true storeW "CAR1" 10 20 none = true := by
  have h := check_car_availability_false_iff_overlap storeW "CAR1" 10 20 none
    (by simp)
  cases hb : check_car_availability true storeW "CAR1" 10 20 none with
  | true => rfl
  | false =>
    exfalso
    obtain ⟨b, hmem, -, -, -, hov⟩ := h.mp hb
    have hb1 : b = bookingW := by simpa [storeW] using hmem
    subst hb1
    exact hov (Or.inr (by norm_num [bookingW]))

/-- Claim C2: starting from a store in which every car has pairwise
non-overlapping Active `[start, end)` ranges, each of `create_booking`,
`cancel_booking` and `complete_booking` (with the storage calls succeeding)
again yields such a store. -/
theorem booking_ops_preserve_no_overlap (st : Store) (b : Booking)
    (bid1 bid2 : String) (h : InvariantHolds st) :
    InvariantHolds (create_booking true true true st b).2 ∧
    InvariantHolds (cancel_booking true true true st bid1).2 ∧
    InvariantHolds (complete_booking true true true st bid2).2 := by
  refine ⟨?_, ?_, ?_⟩
  · rw [create_booking]
    cases hav : check_car_availability true st b.car_id b.start_date
        b.end_date none with
    | false => simpa using h
    | true =>
      have hnover : ∀ a ∈ activeBookingsFor st b.car_id,
          b.end_date ≤ a.start_date ∨ b.start_date ≥ a.end_date := by
        rw [check_car_availability, if_pos rfl] at hav
        exact availabilityLoop_true_no_overlap _ _ _ hav
      simpa using invariant_update_car_status _ _ _
        (invariant_setBooking st b h hnover)
  · rw [cancel_booking]
    cases hg : get_booking st bid1 with
    | none => simpa [hg] using h
    | some bk =>
      simpa [hg] using invariant_update_car_status _ _ _
        (invariant_update_booking_status st bid1 "Cancelled" (by simp) h)
  · rw [complete_booking]
    cases hg : get_booking st bid2 with
    | none => simpa [hg] using h
    | some bk =>
      simpa [hg] using invariant_update_car_status _ _ _
        (invariant_update_booking_status st bid2 "Completed" (by simp) h)

/-- Witness for claim C2 starting from the empty store, whose invariant holds
vacuously. -/
theorem booking_ops_preserve_no_overlap_witness :
    InvariantHolds (create_booking true true true storeEmpty bookingW).2 ∧
    InvariantHolds (cancel_booking true true true storeEmpty "B1").2 ∧
    InvariantHolds (complete_booking true true true storeEmpty "B2").2 :=
  booking_ops_preserve_no_overlap storeEmpty bookingW "B1" "B2"
    (fun cid => by simp [activeBookingsFor, storeEmpty])

/-- Claim C7: with the storage calls succeeding, `cancel_booking` returns
`false` when no booking with the id exists; when the booking exists it
returns `true`, every stored booking with that id ends with status Cancelled,
and the referenced car ends with status Available regardless of its previous
status. -/
theorem cancel_booking_postcondition (st : Store) (bid : String) :
    (get_booking st bid = none →
      cancel_booking true true true st bid = (false, st)) ∧
    (∀ b, get_booking st bid = some b →
      (cancel_booking true true true st bid).1 = true ∧
      (∀ b2 ∈ (cancel_booking true true true st bid).2.bookings,
        b2.booking_id = bid → b2.status = "Cancelled") ∧
      (∀ c ∈ (cancel_booking true true true st bid).2.cars,
        c.car_id = b.car_id → c.status = "Available")) := by
  constructor
  · intro hnone
    simp [cancel_booking, hnone]
  · intro b hb
    refine ⟨by simp [cancel_booking, hb], ?_, ?_⟩
    · intro b2 hb2 hid
      simp only [cancel_booking, hb, if_pos, update_car_status,
        update_booking_status, List.mem_map] at hb2
      obtain ⟨a, ha, rfl⟩ := hb2
      by_cases hbid : (a.booking_id == bid) = true
      · simp [hbid]
      · rw [if_neg hbid] at hid ⊢
        exact absurd (beq_iff_eq.mpr hid) hbid
    · intro c hc hcar
      simp only [cancel_booking, hb, if_pos, update_car_status,
        update_booking_status, List.mem_map] at hc
      obtain ⟨a, ha, rfl⟩ := hc
      by_cases hcid : (a.car_id == b.car_id) = true
      · simp [hcid]
      · rw [if_neg hcid] at hcar ⊢
        exact absurd (beq_iff_eq.mpr hcar) hcid

/-- Witness for claim C7: cancelling the stored Active booking `B1` of
`storeW` succeeds, marks it Cancelled and frees the car. -/
theorem cancel_booking_postcondition_witness :
    (cancel_booking true true true storeW "B1").1 = true ∧
    (∀ b2 ∈ (cancel_booking true true true storeW "B1").2.bookings,
      b2.booking_id = "B1" → b2.status = "Cancelled") ∧
    (∀ c ∈ (cancel_booking true true true storeW "B1").2.cars,
      c.car_id = bookingW.car_id → c.status = "Available") :=
  (cancel_booking_postcondition storeW "B1").2 bookingW (by decide)

end CarRental
